import Mathlib

/-!
Formal model of the TrickrTreat repository (two Raspberry Pi scripts driving
an mpv-based Halloween prop from a PIR motion sensor).

`tricktreatmpv.py` is the one-file variant: a single video holds the idle and
the trigger segment, a polling loop queries mpv's `time-pos` over the IPC
socket and runs a two-state machine (IDLE / TRIGGER) addressed by seek bounds.

`trickrtreat.py` is the two-file variant: a persistent mpv process plays
`idle.mp4` in a loop; the GPIO callback switches to `trigger.mp4`, sleeps for
its fixed duration and switches back, while the main loop is a liveness
watchdog that relaunches mpv when it dies.

Positions and durations are modelled as rationals (mpv reports seconds as a
float; the comparisons used by the scripts are plain `>=` and `<`).  Commands
sent over the IPC socket are modelled as an inductive `Cmd`; constant protocol
arguments (`"absolute"` on seeks, `"replace", "noidx"` on loadfile) are elided
since the scripts never vary them.
-/

/-- Commands the scripts send to mpv over the IPC socket.
`seek t` stands for `{command: [seek, t, absolute]}`;
`setLoopFile v` for `{command: [set_property, loop-file, v]}`;
`loadfile p` for `{command: [loadfile, p, replace, noidx]}`;
`quit` for `{command: [quit]}`. -/
inductive Cmd where
  | seek (t : ℚ)
  | setLoopFile (v : String)
  | loadfile (path : String)
  | quit
deriving DecidableEq

namespace TrickrTreatMpv

/-- Video time configuration, `tricktreatmpv.py` lines 12-15. -/
def IDLE_START_S : ℚ := 0

/-- See `IDLE_START_S`. -/
def IDLE_END_S : ℚ := 50

/-- See `IDLE_START_S`. -/
def TRIGGER_START_S : ℚ := 53

/-- See `IDLE_START_S`. -/
def TRIGGER_END_S : ℚ := 76

/-- The single combined video file, `tricktreatmpv.py` line 19 (the
`SCRIPT_DIR` prefix added at runtime is elided). -/
def VIDEO_PATH : String := "trickrtreatdoor.mp4"

/-- The mpv launch invocation, `tricktreatmpv.py` lines 66-75.  The file is
launched with `--loop-file=inf`, and no command issued anywhere in the script
ever changes the `loop-file` property afterwards. -/
def mpv_command : List String :=
  ["mpv", VIDEO_PATH, "--fs", "--keep-open=yes", "--no-osc", "--no-osd-bar",
   "--loop-file=inf", "--input-ipc-server=/tmp/mpv.sock"]

/-- The playback state, `current_state` in the script (`'IDLE'` / `'TRIGGER'`). -/
inductive PState where
  | IDLE
  | TRIGGER
deriving DecidableEq

/-- Result of one iteration of the control loop: the new `current_state`, the
new `motion_detected_flag`, and the commands sent during the iteration. -/
structure TickResult where
  state : PState
  flag : Bool
  cmds : List Cmd
deriving DecidableEq

/-- One iteration of the control loop of `tricktreatmpv.py` (lines 89-115).

* `resp` models the `get_property time-pos` query: `none` when the socket is
  absent or refuses the connection (`send_mpv_command` returns `None`), in
  which case line 92 (`response.get('data', 0) if response else 0`) substitutes
  the position `0`.
* Lines 95-102: if `motion_detected_flag` is set and the state is IDLE, go to
  TRIGGER and seek to `TRIGGER_START_S`; otherwise a set flag is merely
  cleared.  Either way the flag is false afterwards.
* Lines 105-113: in IDLE, a position at or past `IDLE_END_S` (or before
  `IDLE_START_S`) rearms the idle loop with a seek to `IDLE_START_S`; in
  TRIGGER, a position at or past `TRIGGER_END_S` seeks to `IDLE_START_S` and
  returns to IDLE.  The state handling runs on the state as updated by the
  motion handling, using the position read at the top of the iteration. -/
def tickMPV (state : PState) (flag : Bool) (resp : Option ℚ) : TickResult :=
  let current_time : ℚ := resp.getD 0
  let motionStep : PState × Bool × List Cmd :=
    if flag = true then
      if state = PState.IDLE then
        (PState.TRIGGER, false, [Cmd.seek TRIGGER_START_S])
      else
        (state, false, [])
    else (state, flag, [])
  let stateStep : PState × List Cmd :=
    match motionStep.1 with
    | PState.IDLE =>
        if IDLE_END_S ≤ current_time ∨ current_time < IDLE_START_S then
          (PState.IDLE, [Cmd.seek IDLE_START_S])
        else (PState.IDLE, [])
    | PState.TRIGGER =>
        if TRIGGER_END_S ≤ current_time then
          (PState.IDLE, [Cmd.seek IDLE_START_S])
        else (PState.TRIGGER, [])
  ⟨stateStep.1, motionStep.2.1, motionStep.2.2 ++ stateStep.2⟩

/-- Iterate `tickMPV` over a list of observed positions, collecting every
command sent.  Models consecutive iterations of the control loop during which
no motion arrives beyond the initial flag value. -/
def runMPV : PState → Bool → List (Option ℚ) → PState × Bool × List Cmd
  | s, f, [] => (s, f, [])
  | s, f, p :: ps =>
      let r := tickMPV s f p
      let rest := runMPV r.state r.flag ps
      (rest.1, rest.2.1, r.cmds ++ rest.2.2)

/-- Interleaving points for one `motion_callback` write (`tricktreatmpv.py`
line 29, `motion_detected_flag = True`, executed on the GPIO event thread)
relative to one control-loop iteration's accesses to the flag.  The iteration
reads the flag once (the test on line 95/101) and, only when that read
returned true, later writes `False` (line 99 or 102); these are two separate
operations of the polling thread, so the callback's write can land before the
read, between the read and the clear, or after the whole iteration. -/
inductive Arrival where
  | beforeRead
  | inWindow
  | afterTick
  | noArrival
deriving DecidableEq

/-- Outcome of one iteration's flag accesses under one interleaved write:
the value the iteration's test observed, and the value of
`motion_detected_flag` once both threads are done. -/
structure FlagTick where
  readValue : Bool
  flagAfter : Bool
deriving DecidableEq

/-- The flag protocol of `tricktreatmpv.py` (lines 26-29 and 95-102) under one
concurrent callback write placed at `arr`, starting from flag value `flag0`.
A read of `true` is followed by the clear `motion_detected_flag = False`; a
read of `false` executes no clear.  A write landing between a true read and
its clear is overwritten by the clear; a write landing when no clear follows
(or after the iteration) survives. -/
def flagTick (flag0 : Bool) (arr : Arrival) : FlagTick :=
  match arr with
  | Arrival.beforeRead => { readValue := true, flagAfter := false }
  | Arrival.inWindow =>
      { readValue := flag0, flagAfter := if flag0 then false else true }
  | Arrival.afterTick => { readValue := flag0, flagAfter := true }
  | Arrival.noArrival =>
      { readValue := flag0, flagAfter := if flag0 then false else flag0 }

end TrickrTreatMpv

namespace TrickrTreat

/-- Source: `trickrtreat.py` line 27. -/
def IDLE_VIDEO : String := "idle.mp4"

/-- Source: `trickrtreat.py` line 28. -/
def TRIGGER_VIDEO : String := "trigger.mp4"

/-- Source: `trickrtreat.py` line 32: the fixed wall-clock duration of the trigger
video (26.0 seconds). -/
def TRIGGER_DURATION_SECONDS : ℚ := 26

/-- The persistent mpv process as the script observes and drives it: whether
`mpv_process.poll()` reports it alive, which file it is playing, and whether
`loop-file` looping is in force.  `playing = none` models "no process has ever
been successfully spawned" (`mpv_process is None`). -/
structure Mpv where
  alive : Bool
  playing : Option String
  loops : Bool
deriving DecidableEq

/-- Model of `start_mpv_process` (`trickrtreat.py` lines 93-123): returns immediately
when the process is already running (line 96-98); otherwise removes a stale
socket and spawns mpv on `idle.mp4` with `--loop=inf` (lines 101-113).
`binaryPresent` abstracts whether `Popen` succeeds; when it raises, the
handler (lines 114-119) runs `cleanup_and_exit` — which returns (see
`mainFatalLaunch`) — and the process state is unchanged.  The second component
records whether a spawn was attempted this call. -/
def start_mpv_process (binaryPresent : Bool) (m : Mpv) : Mpv × Bool :=
  if m.alive then (m, false)
  else if binaryPresent then (⟨true, some IDLE_VIDEO, true⟩, true)
  else (m, true)

/-- One iteration of the watchdog loop of `main` (`trickrtreat.py` lines
214-219): if `mpv_process.poll()` reports the process dead, call
`start_mpv_process`; otherwise do nothing. -/
def mainLoopTick (binaryPresent : Bool) (m : Mpv) : Mpv × Bool :=
  if m.alive then (m, false) else start_mpv_process binaryPresent m

/-- Commands sent by `switch_to_idle` (`trickrtreat.py` lines 126-135): load
`idle.mp4` replacing the current file, then re-enable infinite looping. -/
def switch_to_idle_cmds : List Cmd :=
  [Cmd.loadfile IDLE_VIDEO, Cmd.setLoopFile "inf"]

/-- Commands sent by `switch_to_trigger` (`trickrtreat.py` lines 138-146):
disable looping on the current file, then load `trigger.mp4` replacing it. -/
def switch_to_trigger_cmds : List Cmd :=
  [Cmd.setLoopFile "no", Cmd.loadfile TRIGGER_VIDEO]

/-- One step of the GPIO callback's body: an IPC command or a `time.sleep`. -/
inductive CbStep where
  | cmd (c : Cmd)
  | sleep (s : ℚ)
deriving DecidableEq

/-- Model of `motion_detected_callback` (`trickrtreat.py` lines 153-166), as the trace
of steps it performs.  The body runs only when a process handle exists and
`poll()` reports it alive (line 156); then it switches to the trigger video,
sleeps for the trigger duration, and switches back to idle.  When the handle
is absent or the process is dead the callback does nothing at all — nothing is
recorded anywhere for later replay. -/
def motion_detected_callback (handle : Option Mpv) : List CbStep :=
  match handle with
  | some m =>
      if m.alive then
        (switch_to_trigger_cmds.map CbStep.cmd)
          ++ [CbStep.sleep TRIGGER_DURATION_SECONDS]
          ++ (switch_to_idle_cmds.map CbStep.cmd)
      else []
  | none => []

/-- Observable effects of one `cleanup_and_exit` call. -/
structure CleanupTrace where
  sigtermToGroup : Bool
  sigkill : Bool
  gpioCleaned : Bool
  socketRemoved : Bool
  exited : Option Nat
deriving DecidableEq

/-- Model of `cleanup_and_exit` (`trickrtreat.py` lines 169-193).  When the process is
alive it sends SIGTERM to the process group and waits up to 5 seconds (lines
177-180); a timeout (the process did not exit in time) raises and is swallowed
by `except Exception: pass` (lines 181-182), and no further signal of any kind
is sent — there is no forceful kill in the script.  `exitsOnTerm` abstracts
whether the player honours the SIGTERM within the wait.  Then GPIO is cleaned
up and the socket file removed if present (lines 184-189).  Finally the
function calls `exit(0)` only when `signum` is present, i.e. only when invoked
as a signal handler (lines 192-193); otherwise it simply returns. -/
def cleanup_and_exit (signum : Option Nat) (exitsOnTerm : Bool) (m : Mpv)
    (socketExists : Bool) : Mpv × CleanupTrace :=
  let termStep : Mpv × Bool :=
    if m.alive then ({ m with alive := !exitsOnTerm }, true) else (m, false)
  (termStep.1,
   { sigtermToGroup := termStep.2, sigkill := false, gpioCleaned := true,
     socketRemoved := socketExists,
     exited := signum.map fun _ => 0 })

/-- Run of `main` (`trickrtreat.py` lines 195-224) when the player binary is
absent at the first launch.  `start_mpv_process` (line 206) reaches `Popen`
(line 112), which raises `FileNotFoundError`; the handler (lines 114-116)
calls `cleanup_and_exit()` with no `signum`, so that call performs its full
cleanup — including `GPIO.cleanup()` (line 185) — and returns, its `exit(0)`
being guarded by `signum is not None` (line 192); `start_mpv_process` then
resumes at line 122 and returns normally.  `main` next executes
`GPIO.add_event_detect` (line 209), which RPi.GPIO rejects with a
`RuntimeError` because the pin-numbering mode and channel setup were just torn
down by that `GPIO.cleanup()`; line 209 precedes the `try:` at line 213, so
the exception is uncaught and the interpreter ends with the
unhandled-exception status 1, after the full cleanup has run.  The second
component is the process exit status: the code of an executed `exit` if there
was one, else status 1 from the uncaught `RuntimeError`, which fires exactly
because GPIO was already cleaned. -/
def mainFatalLaunch : CleanupTrace × Nat :=
  let m0 : Mpv := ⟨false, none, false⟩
  let r1 := cleanup_and_exit none false m0 false
  (r1.2, (r1.2.exited).getD (if r1.2.gpioCleaned then 1 else 0))

end TrickrTreat

namespace TrickrTreatMpv

/-- Characterization of one control-loop iteration starting in TRIGGER: the
flag is cleared whatever it was, and the position alone decides between the
return-to-idle seek and a no-op. -/
theorem tick_trigger (f : Bool) (resp : Option ℚ) :
    tickMPV PState.TRIGGER f resp =
      if TRIGGER_END_S ≤ resp.getD 0 then
        ⟨PState.IDLE, false, [Cmd.seek IDLE_START_S]⟩
      else ⟨PState.TRIGGER, false, []⟩ := by
  cases f <;> by_cases h : TRIGGER_END_S ≤ resp.getD 0 <;> simp [tickMPV, h]

/-- Characterization of one control-loop iteration starting in IDLE with the
motion flag set: the trigger seek is always issued and the state handling then
runs on TRIGGER with the position read at the top of the iteration. -/
theorem tick_idle_motion (resp : Option ℚ) :
    tickMPV PState.IDLE true resp =
      if TRIGGER_END_S ≤ resp.getD 0 then
        ⟨PState.IDLE, false, [Cmd.seek TRIGGER_START_S, Cmd.seek IDLE_START_S]⟩
      else ⟨PState.TRIGGER, false, [Cmd.seek TRIGGER_START_S]⟩ := by
  by_cases h : TRIGGER_END_S ≤ resp.getD 0 <;> simp [tickMPV, h]

/-- Characterization of one control-loop iteration starting in IDLE with no
pending motion. -/
theorem tick_idle_nomotion (resp : Option ℚ) :
    tickMPV PState.IDLE false resp =
      if IDLE_END_S ≤ resp.getD 0 ∨ resp.getD 0 < IDLE_START_S then
        ⟨PState.IDLE, false, [Cmd.seek IDLE_START_S]⟩
      else ⟨PState.IDLE, false, []⟩ := by
  by_cases h : IDLE_END_S ≤ resp.getD 0 ∨ resp.getD 0 < IDLE_START_S <;>
    simp [tickMPV, h]

/-- An IDLE iteration with no pending motion and a position inside the idle
window is a complete no-op. -/
theorem tick_idle_inside (p : ℚ) (h0 : IDLE_START_S ≤ p) (h1 : p < IDLE_END_S) :
    tickMPV PState.IDLE false (some p) = ⟨PState.IDLE, false, []⟩ := by
  have ht := tick_idle_nomotion (some p)
  simp only [Option.getD_some] at ht
  rw [ht, if_neg]
  rintro (h | h)
  · exact absurd h (not_le.mpr h1)
  · exact absurd h (not_lt.mpr h0)

/-- No iteration of the control loop, from any state, ever issues a
`set_property loop-file` command: looping is configured once at launch
(`--loop-file=inf`) and never touched again. -/
theorem tick_no_setLoopFile (s : PState) (f : Bool) (r : Option ℚ) (v : String) :
    Cmd.setLoopFile v ∉ (tickMPV s f r).cmds := by
  intro hv
  cases s with
  | IDLE =>
      cases f with
      | false =>
          rw [tick_idle_nomotion] at hv
          by_cases h : IDLE_END_S ≤ r.getD 0 ∨ r.getD 0 < IDLE_START_S <;>
            simp [h] at hv
      | true =>
          rw [tick_idle_motion] at hv
          by_cases h : TRIGGER_END_S ≤ r.getD 0 <;> simp [h] at hv
  | TRIGGER =>
      rw [tick_trigger] at hv
      by_cases h : TRIGGER_END_S ≤ r.getD 0 <;> simp [h] at hv

/-- Claim C1 (amended): an iteration in TRIGGER with the motion flag set
always consumes (clears) the flag and never issues the trigger seek — no new
trigger cycle can begin from motion delivered during TRIGGER — and, when the
observed position is still below `TRIGGER_END_S`, the iteration issues no
command at all and stays in TRIGGER.  (As stated, the claim also asserted no
command and no state change at every position; at a position at or past
`TRIGGER_END_S` the iteration instead performs the normal completion seek to
`IDLE_START_S` and returns to IDLE, with the motion still dropped — see the
counterexample.) -/
theorem trigger_motion_dropped (resp : Option ℚ) :
    (tickMPV PState.TRIGGER true resp).flag = false
    ∧ (∀ c ∈ (tickMPV PState.TRIGGER true resp).cmds, c ≠ Cmd.seek TRIGGER_START_S)
    ∧ (resp.getD 0 < TRIGGER_END_S →
        (tickMPV PState.TRIGGER true resp).cmds = []
        ∧ (tickMPV PState.TRIGGER true resp).state = PState.TRIGGER) := by
  rw [tick_trigger]
  by_cases h : TRIGGER_END_S ≤ resp.getD 0
  · rw [if_pos h]
    refine ⟨rfl, ?_, fun hlt => absurd h (not_le.mpr hlt)⟩
    intro c hc
    simp only [List.mem_singleton] at hc
    subst hc
    decide
  · rw [if_neg h]
    exact ⟨rfl, by intro c hc; simp at hc, fun _ => ⟨rfl, rfl⟩⟩

/-- Witness for `trigger_motion_dropped` at state TRIGGER, position 60,
pending motion (Scenario C of the spec): no command, state stays TRIGGER. -/
theorem trigger_motion_dropped_witness :
    (tickMPV PState.TRIGGER true (some 60)).cmds = []
    ∧ (tickMPV PState.TRIGGER true (some 60)).state = PState.TRIGGER :=
  (trigger_motion_dropped (some 60)).2.2 (by decide)

/-- Counterexample to claim C1 as stated: in TRIGGER with pending motion at
position 76 (which is at `TRIGGER_END_S`), the iteration does issue a command
(the completion seek to 0) and does leave TRIGGER. -/
theorem trigger_motion_dropped_cex :
    ¬ ((tickMPV PState.TRIGGER true (some 76)).cmds = []
       ∧ (tickMPV PState.TRIGGER true (some 76)).state = PState.TRIGGER) := by
  decide

/-- Claim C2 (amended): when the position query returns unavailable
(`send_mpv_command` returned `None`), an iteration with no pending motion —
and also an iteration in TRIGGER with pending motion — issues no command and
leaves the state unchanged: line 92 substitutes position 0, which is inside
the idle window and below the trigger end.  (As stated, the claim also covered
a pending motion in IDLE; the IDLE motion transition never consults the
position, so it fires even when the query failed — see the counterexample.) -/
theorem unavailable_tick_noop (s : PState) (f : Bool)
    (h : s = PState.IDLE → f = false) :
    (tickMPV s f none).cmds = [] ∧ (tickMPV s f none).state = s := by
  cases s <;> cases f <;> first
    | decide
    | exact absurd (h rfl) (by decide)

/-- Witness for `unavailable_tick_noop`: in TRIGGER with pending motion and an
unavailable position, no command is issued and the state stays TRIGGER. -/
theorem unavailable_tick_noop_witness :
    (tickMPV PState.TRIGGER true none).cmds = []
    ∧ (tickMPV PState.TRIGGER true none).state = PState.TRIGGER :=
  unavailable_tick_noop PState.TRIGGER true (by decide)

/-- Counterexample to claim C2 as stated: in IDLE with a pending motion and an
unavailable position, the iteration is not a no-op — it issues the trigger
seek and moves to TRIGGER. -/
theorem unavailable_tick_cex :
    ¬ ((tickMPV PState.IDLE true none).cmds = []
       ∧ (tickMPV PState.IDLE true none).state = PState.IDLE) := by
  decide

/-- Claim C5: an iteration in TRIGGER whose observed position is at or past
`TRIGGER_END_S` issues exactly the seek to `IDLE_START_S` (= `seek 0`) and
returns to IDLE, whatever the motion flag; the idle loop needs no re-enabling
in this variant because no iteration ever touches `loop-file` and the player
was launched with `--loop-file=inf`, while in the two-file variant the
switch back to idle explicitly re-enables looping. -/
theorem trigger_end_returns_idle (f : Bool) (resp : Option ℚ)
    (h : TRIGGER_END_S ≤ resp.getD 0) :
    (tickMPV PState.TRIGGER f resp).cmds = [Cmd.seek IDLE_START_S]
    ∧ (tickMPV PState.TRIGGER f resp).state = PState.IDLE
    ∧ (∀ (s : PState) (f' : Bool) (r : Option ℚ) (v : String),
        Cmd.setLoopFile v ∉ (tickMPV s f' r).cmds)
    ∧ "--loop-file=inf" ∈ mpv_command
    ∧ Cmd.setLoopFile "inf" ∈ TrickrTreat.switch_to_idle_cmds := by
  have ht := tick_trigger f resp
  rw [if_pos h] at ht
  exact ⟨by rw [ht], by rw [ht], tick_no_setLoopFile, by decide, by decide⟩

/-- Witness for `trigger_end_returns_idle` at position 76 with no pending
motion (Scenario D of the spec): seek(0) is issued and the state becomes
IDLE. -/
theorem trigger_end_returns_idle_witness :
    (tickMPV PState.TRIGGER false (some 76)).cmds = [Cmd.seek 0]
    ∧ (tickMPV PState.TRIGGER false (some 76)).state = PState.IDLE :=
  ⟨(trigger_end_returns_idle false (some 76) (by decide)).1,
   (trigger_end_returns_idle false (some 76) (by decide)).2.1⟩

/-- Claim C6 (amended): an iteration in IDLE with pending motion always
consumes the flag and issues the seek to `TRIGGER_START_S` first; when the
stale observed position is below `TRIGGER_END_S` that seek is the only command
and the iteration ends in TRIGGER, but when the observed position is already
at or past `TRIGGER_END_S` the same iteration's state handling immediately
completes the fresh trigger, issuing a second seek back to `IDLE_START_S` and
ending in IDLE.  (As stated, the claim promised the transition to TRIGGER
regardless of the observed position — see the counterexample.) -/
theorem idle_motion_triggers (resp : Option ℚ) :
    (tickMPV PState.IDLE true resp).flag = false
    ∧ (tickMPV PState.IDLE true resp).cmds.head? = some (Cmd.seek TRIGGER_START_S)
    ∧ (resp.getD 0 < TRIGGER_END_S →
        (tickMPV PState.IDLE true resp).cmds = [Cmd.seek TRIGGER_START_S]
        ∧ (tickMPV PState.IDLE true resp).state = PState.TRIGGER)
    ∧ (TRIGGER_END_S ≤ resp.getD 0 →
        (tickMPV PState.IDLE true resp).cmds
          = [Cmd.seek TRIGGER_START_S, Cmd.seek IDLE_START_S]
        ∧ (tickMPV PState.IDLE true resp).state = PState.IDLE) := by
  rw [tick_idle_motion]
  by_cases h : TRIGGER_END_S ≤ resp.getD 0
  · rw [if_pos h]
    exact ⟨rfl, rfl, fun hlt => absurd h (not_le.mpr hlt), fun _ => ⟨rfl, rfl⟩⟩
  · rw [if_neg h]
    exact ⟨rfl, rfl, fun _ => ⟨rfl, rfl⟩, fun hle => absurd hle h⟩

/-- Witness for `idle_motion_triggers` at position 10 with pending motion
(Scenario B of the spec): seek(53) is issued and the state becomes TRIGGER. -/
theorem idle_motion_triggers_witness :
    (tickMPV PState.IDLE true (some 10)).cmds = [Cmd.seek TRIGGER_START_S]
    ∧ (tickMPV PState.IDLE true (some 10)).state = PState.TRIGGER :=
  (idle_motion_triggers (some 10)).2.2.1 (by decide)

/-- Counterexample to claim C6 as stated: in IDLE with pending motion at the
stale observed position 76, the iteration does not end in TRIGGER. -/
theorem idle_motion_triggers_cex :
    ¬ ((tickMPV PState.IDLE true (some 76)).state = PState.TRIGGER) := by
  decide

/-- Claim C7: in IDLE with no pending motion an iteration issues the rearm
seek to `IDLE_START_S` exactly when the position is at or past `IDLE_END_S` or
strictly before `IDLE_START_S` (closed-open interval semantics); inside
`[IDLE_START_S, IDLE_END_S)` it issues nothing, the state stays IDLE, and
repeated such iterations never issue a command. -/
theorem idle_rearm_iff :
    (∀ p : ℚ,
      ((tickMPV PState.IDLE false (some p)).cmds = [Cmd.seek IDLE_START_S]
        ↔ (IDLE_END_S ≤ p ∨ p < IDLE_START_S))
      ∧ ((IDLE_START_S ≤ p ∧ p < IDLE_END_S) →
          (tickMPV PState.IDLE false (some p)).cmds = [])
      ∧ (tickMPV PState.IDLE false (some p)).state = PState.IDLE
      ∧ (tickMPV PState.IDLE false (some p)).flag = false)
    ∧ (∀ ps : List ℚ, (∀ p ∈ ps, IDLE_START_S ≤ p ∧ p < IDLE_END_S) →
        runMPV PState.IDLE false (ps.map some) = (PState.IDLE, false, [])) := by
  constructor
  · intro p
    have ht := tick_idle_nomotion (some p)
    simp only [Option.getD_some] at ht
    by_cases h : IDLE_END_S ≤ p ∨ p < IDLE_START_S
    · rw [if_pos h] at ht
      rw [ht]
      refine ⟨⟨fun _ => h, fun _ => rfl⟩, ?_, rfl, rfl⟩
      rintro ⟨h0, h1⟩
      rcases h with h | h
      · exact absurd h (not_le.mpr h1)
      · exact absurd h (not_lt.mpr h0)
    · rw [if_neg h] at ht
      rw [ht]
      exact ⟨⟨fun hc => absurd hc (by simp), fun hcond => absurd hcond h⟩,
             fun _ => rfl, rfl, rfl⟩
  · intro ps hps
    induction ps with
    | nil => rfl
    | cons p ps ih =>
        have hp := hps p (by simp)
        have hrest := ih fun q hq => hps q (by simp [hq])
        have hhead := tick_idle_inside p hp.1 hp.2
        simp [runMPV, hhead, hrest]

/-- Witness for `idle_rearm_iff` (Scenario A and the boundary test of the
spec): position 49 issues nothing, position 50 issues seek(0), and a run of
in-window iterations issues nothing. -/
theorem idle_rearm_iff_witness :
    (tickMPV PState.IDLE false (some 49)).cmds = []
    ∧ (tickMPV PState.IDLE false (some 50)).cmds = [Cmd.seek IDLE_START_S]
    ∧ runMPV PState.IDLE false ([49, 10].map some) = (PState.IDLE, false, []) :=
  ⟨(idle_rearm_iff.1 49).2.1 (by decide),
   (idle_rearm_iff.1 50).1.mpr (Or.inl (by decide)),
   idle_rearm_iff.2 [49, 10] (by decide)⟩

/-- Claim C9 (amended): conservation of motion notifications across one
iteration with one interleaved callback write.  Pending-before plus
newly-delivered equals observed-by-the-check plus still-pending-after plus the
two drop cases: the by-design capacity-1 coalescing (the write lands while an
unread notification is pending) and the check-then-clear race (the write lands
between a successful check and the subsequent clear, where the plain boolean
erases it).  The last term is the loss the claim said cannot happen. -/
theorem flag_race_accounting (f0 : Bool) (arr : Arrival) :
    (if f0 then 1 else 0) + (if arr ≠ Arrival.noArrival then 1 else 0)
      = (if (flagTick f0 arr).readValue then 1 else 0)
        + (if (flagTick f0 arr).flagAfter then 1 else 0)
        + (if f0 = true ∧ arr = Arrival.beforeRead then 1 else 0)
        + (if f0 = true ∧ arr = Arrival.inWindow then 1 else 0) := by
  cases f0 <;> cases arr <;> decide

/-- Counterexample to claim C9 as stated: with the flag already set, a
callback write landing between the iteration's check (which read `true`) and
its clear leaves the flag `false` — two notifications were delivered, one was
observed, and none remains pending, so the concurrent one is missed. -/
theorem flag_race_cex :
    (flagTick true Arrival.inWindow).readValue = true
    ∧ (flagTick true Arrival.inWindow).flagAfter = false
    ∧ ¬ ((flagTick true Arrival.inWindow).flagAfter = true) := by
  decide

end TrickrTreatMpv

namespace TrickrTreat

/-- Claim C3: if the watchdog iteration observes the player process dead, it
attempts a relaunch (for any spawn outcome), and a successful relaunch leaves
the player alive, playing the idle video with looping on — the playback state
is back to IDLE. -/
theorem relaunch_resets_idle (m : Mpv) (h : m.alive = false) :
    (mainLoopTick true m).2 = true
    ∧ (mainLoopTick true m).1 = ⟨true, some IDLE_VIDEO, true⟩
    ∧ ∀ bp : Bool, (mainLoopTick bp m).2 = true := by
  refine ⟨?_, ?_, ?_⟩
  · simp [mainLoopTick, start_mpv_process, h]
  · simp [mainLoopTick, start_mpv_process, h]
  · intro bp
    cases bp <;> simp [mainLoopTick, start_mpv_process, h]

/-- Witness for `relaunch_resets_idle`: a dead player that had been on the
trigger video is relaunched on the looping idle video. -/
theorem relaunch_resets_idle_witness :
    (mainLoopTick true ⟨false, some TRIGGER_VIDEO, false⟩).2 = true
    ∧ (mainLoopTick true ⟨false, some TRIGGER_VIDEO, false⟩).1
        = ⟨true, some IDLE_VIDEO, true⟩ :=
  ⟨(relaunch_resets_idle ⟨false, some TRIGGER_VIDEO, false⟩ rfl).1,
   (relaunch_resets_idle ⟨false, some TRIGGER_VIDEO, false⟩ rfl).2.1⟩

/-- Claim C4: when the player binary cannot be located or spawned at all, the
fatal launch path runs the full cleanup — GPIO released, no forceful kill (and
no player remnant to terminate at first launch), the control socket removed
when present — and the process exits with a non-zero status: the
`cleanup_and_exit()` call returns without exiting (its `exit(0)` is guarded by
`signum is not None`), and the subsequent `GPIO.add_event_detect` (line 209,
before the `try:` at line 213) raises an uncaught `RuntimeError` against the
just-cleaned GPIO, ending the interpreter with status 1.  A clean shutdown
through the signal handler exits with code 0. -/
theorem fatal_launch_cleanup_nonzero :
    mainFatalLaunch.2 ≠ 0
    ∧ mainFatalLaunch.2 = 1
    ∧ mainFatalLaunch.1.gpioCleaned = true
    ∧ mainFatalLaunch.1.sigkill = false
    ∧ mainFatalLaunch.1.exited = none
    ∧ (cleanup_and_exit none false ⟨false, none, false⟩ true).2.socketRemoved = true
    ∧ (cleanup_and_exit (some 2) true ⟨true, some IDLE_VIDEO, true⟩ true).2.exited
        = some 0 := by
  decide

/-- Claim C8 (amended): the shutdown path's terminate step sends SIGTERM to
the player's process group exactly when the process is alive, never sends a
forceful kill (none exists in the script: the 5-second wait's timeout is
swallowed by `except Exception: pass`), and the player remains running after
the call exactly when it was alive and did not honour the SIGTERM within the
wait. -/
theorem terminate_graceful_only (sg : Option Nat) (e : Bool) (m : Mpv)
    (sock : Bool) :
    (cleanup_and_exit sg e m sock).2.sigkill = false
    ∧ (cleanup_and_exit sg e m sock).2.sigtermToGroup = m.alive
    ∧ (cleanup_and_exit sg e m sock).1.alive = (m.alive && !e) := by
  cases m with
  | mk a p l => cases a <;> cases e <;> simp [cleanup_and_exit]

/-- Counterexample to claim C8 as stated: run the shutdown path against a
player that ignores the termination signal — the call returns with the player
still running and no forceful kill was issued. -/
theorem terminate_no_force_cex :
    (cleanup_and_exit none false ⟨true, some IDLE_VIDEO, true⟩ true).1.alive = true
    ∧ (cleanup_and_exit none false ⟨true, some IDLE_VIDEO, true⟩ true).2.sigkill
        = false := by
  decide

/-- Claim C10: a motion event delivered while no process handle exists, or
while the process is dead, makes the callback do nothing at all — no command,
no trigger cycle, nothing recorded — and a later relaunch plays the idle
video, not the trigger video. -/
theorem motion_ignored_when_dead :
    motion_detected_callback none = []
    ∧ (∀ m : Mpv, m.alive = false → motion_detected_callback (some m) = [])
    ∧ (∀ m : Mpv, m.alive = false →
        (mainLoopTick true m).1.playing = some IDLE_VIDEO) := by
  refine ⟨rfl, ?_, ?_⟩
  · intro m h
    simp [motion_detected_callback, h]
  · intro m h
    simp [mainLoopTick, start_mpv_process, h]

/-- Witness for `motion_ignored_when_dead`: motion with a dead player produces
an empty trace, and the subsequent relaunch plays the idle video. -/
theorem motion_ignored_when_dead_witness :
    motion_detected_callback (some ⟨false, some TRIGGER_VIDEO, false⟩) = []
    ∧ (mainLoopTick true ⟨false, some TRIGGER_VIDEO, false⟩).1.playing
        = some IDLE_VIDEO :=
  ⟨motion_ignored_when_dead.2.1 ⟨false, some TRIGGER_VIDEO, false⟩ rfl,
   motion_ignored_when_dead.2.2 ⟨false, some TRIGGER_VIDEO, false⟩ rfl⟩

end TrickrTreat
